import Mathlib

/-!
Shallow embedding of the mystery-dashboard-api publication pipeline.

The Go source is embedded as pure Lean functions:
* `models` — the domain structs (`Workspace`, `Video`, `VideoStats`,
  `PublicationJob`), the publication-job service operations
  (`CreatePublicationJob`, `StartJob`, `CompleteJob`, `FailJob`,
  `CancelJob`) and the job helpers (`IsRetryable`, `IsScheduled`,
  `ShouldExecute`).  Go `time.Time` values become `Int` timestamps and
  `sql.NullTime` becomes `Option Int`; every call of `time.Now()` in the
  source becomes an explicit `now : Int` argument.  The service methods
  read a job through the repository, mutate it and store it back; that
  round trip is embedded as a pure `PublicationJob → PublicationJob`
  transition.
* `pkgpartners` — the platform-client capability contract and the client
  factory `New` from pkg/partners.
* `partners` — `Service.PublishVideo` from internal/partners/service.go.
  The platform client interface is embedded as a structure of result
  functions, and `PublishVideo` additionally returns the list of client
  operations it invoked, in order, so that call-ordering properties can
  be stated (this plays the role of the recording fake client of the
  package's own test).
* `repositories` — `publicationJobRepository.GetScheduledJobs`, with the
  database table embedded as a list of jobs; the SQL `SELECT` returns
  the matching rows together with the (unchanged) table.

The `Video` struct's per-platform identifier fields (`YouTubeID`,
`TikTokID`, `InstagramID`, `FacebookID`, `TwitterMediaID`,
`SnapchatMediaID`) are declared in a part of the repository whose struct
declaration is not in the source tree; their names and types are taken
from their uses in internal/partners/service.go (`TwitterMediaID` is an
`int64`, assigned from `strconv.ParseInt(id, 10, 64)`; the others are
strings).
-/

namespace models

/-- Go `type Platform string`. -/
abbrev Platform := String

def PlatformYouTube : Platform := "youtube"

def PlatformTikTok : Platform := "tiktok"

def PlatformInstagram : Platform := "instagram"

def PlatformFacebook : Platform := "facebook"

def PlatformTwitter : Platform := "twitter"

def PlatformLinkedIn : Platform := "linkedin"

def PlatformSnapchat : Platform := "snapchat"

/-- Go `type PublicationStatus string`. -/
abbrev PublicationStatus := String

def PublicationPending : PublicationStatus := "pending"

def PublicationScheduled : PublicationStatus := "scheduled"

def PublicationProcessing : PublicationStatus := "processing"

def PublicationCompleted : PublicationStatus := "completed"

def PublicationFailed : PublicationStatus := "failed"

def PublicationCancelled : PublicationStatus := "cancelled"

/-- Go `models.Workspace`: a user's per-platform credential bundle.
Field defaults are the Go zero values. -/
structure Workspace where
  ID : String := ""
  TenantID : String := ""
  UserID : String := ""
  Name : String := ""
  CredentialsPath : String := ""
  TokenDir : String := ""
  TikTokAppID : String := ""
  TikTokSecret : String := ""
  RedirectURI : String := ""
  OAuthCode : String := ""
  InstagramUserID : String := ""
  InstagramAccessToken : String := ""
  FacebookPageID : String := ""
  FacebookPageToken : String := ""
  TwitterConsumerKey : String := ""
  TwitterConsumerSecret : String := ""
  TwitterAccessToken : String := ""
  TwitterAccessSecret : String := ""
  SnapchatAccessToken : String := ""
  SnapchatProfileID : String := ""
  CreatedAt : Int := 0
  UpdatedAt : Int := 0
  DeletedAt : Option Int := none
deriving DecidableEq

/-- Go `models.Video`, together with the per-platform external
identifier fields used by internal/partners/service.go.
Field defaults are the Go zero values. -/
structure Video where
  ID : String := ""
  TenantID : String := ""
  UserID : String := ""
  Title : String := ""
  Description : String := ""
  FileName : String := ""
  FilePath : String := ""
  FileURL : String := ""
  FileSize : Int := 0
  Duration : Int := 0
  Format : String := ""
  Resolution : String := ""
  Status : String := ""
  Metadata : String := ""
  ThumbnailURL : String := ""
  S3Key : String := ""
  S3Bucket : String := ""
  Tags : String := ""
  YouTubeID : String := ""
  TikTokID : String := ""
  InstagramID : String := ""
  FacebookID : String := ""
  TwitterMediaID : Int := 0
  SnapchatMediaID : String := ""
  CreatedAt : Int := 0
  UpdatedAt : Int := 0
  DeletedAt : Option Int := none
deriving DecidableEq

/-- Go `models.VideoStats`: a per-platform analytics snapshot. -/
structure VideoStats where
  ID : String := ""
  TenantID : String := ""
  VideoID : String := ""
  Platform : String := ""
  ExternalID : String := ""
  Views : Int := 0
  Likes : Int := 0
  Dislikes : Int := 0
  Comments : Int := 0
  Shares : Int := 0
  Subscribers : Int := 0
  WatchTime : Int := 0
  AvgWatchTime : Float := 0
  ClickThrough : Float := 0
  Engagement : Float := 0
  Revenue : Float := 0
  Impressions : Int := 0
  Demographics : String := ""
  TrafficSources : String := ""
  DeviceTypes : String := ""
  Locations : String := ""
  LastSyncAt : Int := 0
  CreatedAt : Int := 0
  UpdatedAt : Int := 0
  DeletedAt : Option Int := none

/-- Go `models.PublicationJob`: the persisted record of one publish
attempt. -/
structure PublicationJob where
  ID : String := ""
  TenantID : String := ""
  VideoID : String := ""
  UserID : String := ""
  Platform : String := ""
  Status : String := ""
  Config : String := ""
  ExternalID : String := ""
  ExternalURL : String := ""
  ErrorMsg : String := ""
  RetryCount : Int := 0
  MaxRetries : Int := 0
  ScheduledAt : Option Int := none
  StartedAt : Option Int := none
  CompletedAt : Option Int := none
  CreatedAt : Int := 0
  UpdatedAt : Int := 0
  DeletedAt : Option Int := none
deriving DecidableEq

/-- Go `models.CreatePublicationJobRequest`. The `Config` map is kept
abstract as an optional association list (its contents are only passed
through `convertConfigToJSON`). -/
structure CreatePublicationJobRequest where
  VideoID : String := ""
  Platform : String := ""
  Config : Option (List (String × String)) := none
  ScheduledAt : Option Int := none
  MaxRetries : Int := 0

/-- Go `convertConfigToJSON`: returns `""` for an empty map and the
placeholder `"\x7b\x7d"` otherwise. -/
def convertConfigToJSON (config : List (String × String)) : String :=
  if config.length = 0 then "" else "\x7b\x7d"

/-- Go `PublicationJobService.CreatePublicationJob`, as a pure
construction of the job record (the repository `Create` only assigns an
id).  `now` stands for the `time.Now()` calls. -/
def CreatePublicationJob (tenantID userID : String) (now : Int)
    (req : CreatePublicationJobRequest) : PublicationJob :=
  let maxRetries := if req.MaxRetries = 0 then 3 else req.MaxRetries
  let job : PublicationJob :=
    { TenantID := tenantID
      VideoID := req.VideoID
      UserID := userID
      Platform := req.Platform
      Status := PublicationPending
      MaxRetries := maxRetries
      CreatedAt := now
      UpdatedAt := now }
  let job :=
    match req.Config with
    | some c => { job with Config := convertConfigToJSON c }
    | none => job
  match req.ScheduledAt with
  | some t => { job with ScheduledAt := some t, Status := PublicationScheduled }
  | none => job

/-- Go `PublicationJobService.StartJob`: marks a job as processing. -/
def StartJob (now : Int) (j : PublicationJob) : PublicationJob :=
  { j with Status := PublicationProcessing, StartedAt := some now, UpdatedAt := now }

/-- Go `PublicationJobService.CompleteJob`: marks a job as completed. -/
def CompleteJob (externalID externalURL : String) (now : Int)
    (j : PublicationJob) : PublicationJob :=
  { j with Status := PublicationCompleted
           ExternalID := externalID
           ExternalURL := externalURL
           CompletedAt := some now
           UpdatedAt := now }

/-- Go `PublicationJobService.FailJob`: increments the retry count and
marks the job failed when retries are exhausted, pending otherwise. -/
def FailJob (errorMsg : String) (now : Int) (j : PublicationJob) : PublicationJob :=
  let j' := { j with RetryCount := j.RetryCount + 1, ErrorMsg := errorMsg, UpdatedAt := now }
  if j'.MaxRetries ≤ j'.RetryCount then
    { j' with Status := PublicationFailed }
  else
    { j' with Status := PublicationPending }

/-- Go `PublicationJobService.CancelJob`, which calls the repository's
`UpdateStatus(tenantID, id, cancelled)`: only the status column is
written. -/
def CancelJob (j : PublicationJob) : PublicationJob :=
  { j with Status := PublicationCancelled }

/-- Go `PublicationJob.IsRetryable`. -/
def PublicationJob.IsRetryable (j : PublicationJob) : Bool :=
  j.RetryCount < j.MaxRetries && j.Status == PublicationFailed

/-- Go `PublicationJob.IsScheduled`. -/
def PublicationJob.IsScheduled (j : PublicationJob) : Bool :=
  j.Status == PublicationScheduled && j.ScheduledAt.isSome

/-- Go `PublicationJob.ShouldExecute`; `now` stands for `time.Now()`
and `Before` is a strict comparison. -/
def PublicationJob.ShouldExecute (now : Int) (j : PublicationJob) : Bool :=
  if !j.IsScheduled then false
  else
    match j.ScheduledAt with
    | some t => decide (t < now)
    | none => false

/-- One invocation of a status-transition helper of
`PublicationJobService` (the operations a background scheduler drives a
job with after creation). -/
inductive JobOp where
  | start : Int → JobOp
  | complete : String → String → Int → JobOp
  | fail : String → Int → JobOp
  | cancel : JobOp

/-- Apply one status-transition helper to a job. -/
def applyJobOp (j : PublicationJob) : JobOp → PublicationJob
  | .start now => StartJob now j
  | .complete eid eurl now => CompleteJob eid eurl now j
  | .fail msg now => FailJob msg now j
  | .cancel => CancelJob j

/-- Drive a job through a sequence of status-transition helpers. -/
def runJobOps (j : PublicationJob) (ops : List JobOp) : PublicationJob :=
  ops.foldl applyJobOp j

end models

namespace strconv

/-- Value of a base-10 digit string. -/
def digitsVal (ds : List Char) : Nat :=
  ds.foldl (fun a c => a * 10 + (c.toNat - 48)) 0

/-- Go `strconv.ParseInt(s, 10, 64)`, as an `Option`: `none` exactly
when Go returns a non-nil error.  Base 10 accepts an optional leading
sign followed by a non-empty run of decimal digits (no underscores with
an explicit base), and the value must fit in a signed 64-bit integer
(out-of-range input yields `ErrRange`, hence `none` here). -/
def parseInt64 (s : String) : Option Int :=
  let cs := s.toList
  let signed : Bool × List Char :=
    match cs with
    | '+' :: rest => (false, rest)
    | '-' :: rest => (true, rest)
    | _ => (false, cs)
  let neg := signed.1
  let ds := signed.2
  if ds.isEmpty then none
  else if ds.all Char.isDigit then
    let v : Int := if neg then -(digitsVal ds : Int) else (digitsVal ds : Int)
    if -(2 ^ 63) ≤ v ∧ v ≤ 2 ^ 63 - 1 then some v else none
  else none

end strconv

namespace pkgpartners

/-- Client errors are Go `error` values created with `fmt.Errorf`;
embedded as their message strings. -/
abbrev Err := String

/-- Go `pkgpartners.Client`: the four-operation platform capability
contract.  Each operation is embedded as a function from its arguments
to its result; a concrete value of this structure plays the role of one
client implementation (or of a recording fake in the tests). -/
structure Client where
  Authenticate : models.Workspace → Except Err Unit
  Upload : models.Video → Except Err String
  Publish : models.Video → models.Workspace → Except Err Unit
  FetchStats : models.Video → Except Err models.VideoStats

/-- The concrete client struct types constructed by the factory in
pkg/partners (youtubeClient, tiktokClient, ...). -/
inductive ClientKind where
  | youtubeClient
  | tiktokClient
  | instagramClient
  | facebookClient
  | twitterClient
  | snapchatClient
deriving DecidableEq

/-- Go `pkgpartners.New`: maps a platform identifier to a freshly
constructed client, or fails with `fmt.Errorf("unsupported platform: %s",
platform)`.  The `switch models.Platform(platform)` is an exact string
comparison. -/
def New (platform : String) : Except Err ClientKind :=
  if platform = models.PlatformYouTube then .ok .youtubeClient
  else if platform = models.PlatformTikTok then .ok .tiktokClient
  else if platform = models.PlatformInstagram then .ok .instagramClient
  else if platform = models.PlatformFacebook then .ok .facebookClient
  else if platform = models.PlatformTwitter then .ok .twitterClient
  else if platform = models.PlatformSnapchat then .ok .snapchatClient
  else .error ("unsupported platform: " ++ platform)

end pkgpartners

namespace partners

open models pkgpartners

/-- The client operations, used to record the order in which
`PublishVideo` invokes them. -/
inductive Call where
  | Authenticate
  | Upload
  | Publish
  | FetchStats
deriving DecidableEq

/-- Result of one `Service.PublishVideo` call: the ordered list of
client operations invoked, the (possibly mutated) video, and the Go
return value `(*models.VideoStats, error)` as an `Except`. -/
structure PublishOutcome where
  calls : List Call
  video : Video
  result : Except Err VideoStats

/-- The per-platform identifier dispatch of `Service.PublishVideo`
(the `switch platform` after a successful Upload).  For Twitter the id
is parsed with `strconv.ParseInt(id, 10, 64)` and assigned only when
the parse succeeds; the switch has no default case, so any other
platform writes nothing. -/
def setPlatformID (platform : Platform) (id : String) (v : Video) : Video :=
  if platform = PlatformYouTube then { v with YouTubeID := id }
  else if platform = PlatformTikTok then { v with TikTokID := id }
  else if platform = PlatformInstagram then { v with InstagramID := id }
  else if platform = PlatformFacebook then { v with FacebookID := id }
  else if platform = PlatformTwitter then
    match strconv.parseInt64 id with
    | some val => { v with TwitterMediaID := val }
    | none => v
  else if platform = PlatformSnapchat then { v with SnapchatMediaID := id }
  else v

/-- Go `Service.PublishVideo(ws, v, platform)`: resolve a client via
the service's factory, then Authenticate, Upload (writing the returned
media id into the video), Publish, FetchStats; any error short-circuits
and is returned as-is.  The invoked client operations are recorded in
order. -/
def PublishVideo (factory : String → Except Err Client)
    (ws : Workspace) (v : Video) (platform : Platform) : PublishOutcome :=
  match factory platform with
  | .error e => ⟨[], v, .error e⟩
  | .ok client =>
    match client.Authenticate ws with
    | .error e => ⟨[.Authenticate], v, .error e⟩
    | .ok _ =>
      match client.Upload v with
      | .error e => ⟨[.Authenticate, .Upload], v, .error e⟩
      | .ok id =>
        let v' := setPlatformID platform id v
        match client.Publish v' ws with
        | .error e => ⟨[.Authenticate, .Upload, .Publish], v', .error e⟩
        | .ok _ =>
          ⟨[.Authenticate, .Upload, .Publish, .FetchStats], v', client.FetchStats v'⟩

/-- The stats value returned by the package test's recording fake
client. -/
def mockStats : VideoStats := { Views := 1 }

/-- The recording fake client of internal/partners/service_test.go:
every step succeeds, Upload returns `"42"`, FetchStats returns stats
with one view. -/
def mockClient : Client :=
  { Authenticate := fun _ => .ok ()
    Upload := fun _ => .ok "42"
    Publish := fun _ _ => .ok ()
    FetchStats := fun _ => .ok mockStats }

/-- A factory that always returns `mockClient`, as in the test. -/
def mockFactory : String → Except Err Client := fun _ => .ok mockClient

/-- Zero-valued workspace, as `&models.Workspace` in the test. -/
def mockWs : Workspace := {}

/-- Zero-valued video, as `&models.Video` in the test. -/
def mockVideo : Video := {}

/-- A client whose Publish step fails after a successful Upload. -/
def failPublishClient : Client :=
  { Authenticate := fun _ => .ok ()
    Upload := fun _ => .ok "42"
    Publish := fun _ _ => .error "publish failed"
    FetchStats := fun _ => .ok mockStats }

/-- A factory that always returns `failPublishClient`. -/
def failPublishFactory : String → Except Err Client := fun _ => .ok failPublishClient

/-- A client whose Upload succeeds but returns an identifier that is
not a base-10 64-bit integer. -/
def twitterBadIdClient : Client :=
  { Authenticate := fun _ => .ok ()
    Upload := fun _ => .ok "not-a-number"
    Publish := fun _ _ => .ok ()
    FetchStats := fun _ => .ok mockStats }

/-- A factory that always returns `twitterBadIdClient`. -/
def twitterBadIdFactory : String → Except Err Client := fun _ => .ok twitterBadIdClient

example : (PublishVideo mockFactory mockWs mockVideo PlatformYouTube).result = .ok mockStats := rfl

example : (PublishVideo mockFactory mockWs mockVideo PlatformYouTube).video = { mockVideo with YouTubeID := "42" } := rfl

example : (PublishVideo mockFactory mockWs mockVideo PlatformYouTube).calls = [.Authenticate, .Upload, .Publish, .FetchStats] := rfl

example : strconv.parseInt64 "42" = some 42 := by decide

example : strconv.parseInt64 "not-a-number" = none := by decide

example : strconv.parseInt64 "" = none := by decide

example : strconv.parseInt64 "-12" = some (-12) := by decide

example : strconv.parseInt64 "9223372036854775807" = some 9223372036854775807 := by decide

example : strconv.parseInt64 "9223372036854775808" = none := by decide

example : (PublishVideo twitterBadIdFactory mockWs mockVideo PlatformTwitter).video = mockVideo := rfl

end partners

namespace repositories

open models

/-- Go `publicationJobRepository.GetScheduledJobs(before, limit)`:
`SELECT ... WHERE status = 'scheduled' AND scheduled_at <= before LIMIT
limit`.  The table is embedded as a list of jobs; the query returns the
matching rows (at most `limit`) together with the table, which it does
not modify. -/
def GetScheduledJobs (db : List PublicationJob) (before : Int) (limit : Nat) :
    List PublicationJob × List PublicationJob :=
  ((db.filter fun j =>
      j.Status == PublicationScheduled &&
        match j.ScheduledAt with
        | some t => decide (t ≤ before)
        | none => false).take limit,
   db)

end repositories

/-- A job created with the default retry bound (`MaxRetries` left unset
in the request, hence 3). -/
def jobMax3 : models.PublicationJob :=
  models.CreatePublicationJob "tenant" "user" 0
    { VideoID := "vid", Platform := "youtube" }

/-- A reachable completed job: created, started, then completed. -/
def jobCompleted : models.PublicationJob :=
  models.CompleteJob "ext" "url" 0 (models.StartJob 0 jobMax3)

/-- A job created at time 0 with a scheduled start time of 50. -/
def jobScheduled50 : models.PublicationJob :=
  models.CreatePublicationJob "tenant" "user" 0
    { VideoID := "vid", Platform := "youtube", ScheduledAt := some 50 }

/-- C1: for every `PublishVideo` call that returns without error, the
platform client's operations are invoked in the strict order
Authenticate, Upload, Publish, FetchStats, each exactly once, and the
value returned by FetchStats is returned as the operation's result. -/
theorem publishVideo_success_step_order
    (factory : String → Except pkgpartners.Err pkgpartners.Client)
    (ws : models.Workspace) (v : models.Video) (p : models.Platform)
    (stats : models.VideoStats)
    (h : (partners.PublishVideo factory ws v p).result = .ok stats) :
    (partners.PublishVideo factory ws v p).calls =
      [.Authenticate, .Upload, .Publish, .FetchStats] ∧
    ∃ client id, factory p = .ok client ∧
      client.Authenticate ws = .ok () ∧
      client.Upload v = .ok id ∧
      client.Publish (partners.setPlatformID p id v) ws = .ok () ∧
      client.FetchStats (partners.setPlatformID p id v) = .ok stats := by
  rcases hf : factory p with e | client
  · simp [partners.PublishVideo, hf] at h
  rcases ha : client.Authenticate ws with e | u
  · simp [partners.PublishVideo, hf, ha] at h
  cases u
  rcases hu : client.Upload v with e | id
  · simp [partners.PublishVideo, hf, ha, hu] at h
  rcases hp : client.Publish (partners.setPlatformID p id v) ws with e | u2
  · simp [partners.PublishVideo, hf, ha, hu, hp] at h
  cases u2
  refine ⟨?_, client, id, rfl, by rw [ha], by rw [hu], by rw [hp], ?_⟩
  · simp [partners.PublishVideo, hf, ha, hu, hp]
  · simpa [partners.PublishVideo, hf, ha, hu, hp] using h

/-- Witness for C1, at the recording fake client of the package's own
test (`Upload` returns `"42"`, stats report one view). -/
theorem publishVideo_success_step_order_witness :
    (partners.PublishVideo partners.mockFactory partners.mockWs partners.mockVideo
        models.PlatformYouTube).calls =
      [.Authenticate, .Upload, .Publish, .FetchStats] ∧
    ∃ client id, partners.mockFactory models.PlatformYouTube = .ok client ∧
      client.Authenticate partners.mockWs = .ok () ∧
      client.Upload partners.mockVideo = .ok id ∧
      client.Publish (partners.setPlatformID models.PlatformYouTube id partners.mockVideo)
        partners.mockWs = .ok () ∧
      client.FetchStats (partners.setPlatformID models.PlatformYouTube id partners.mockVideo) =
        .ok partners.mockStats :=
  publishVideo_success_step_order partners.mockFactory partners.mockWs partners.mockVideo
    models.PlatformYouTube partners.mockStats rfl

/-- C2: every failing step of `PublishVideo` short-circuits the
remaining steps and its error is returned unchanged: a factory or
Authenticate error leaves the video unmutated and skips all later
steps; an Upload error skips Publish and FetchStats; a Publish error
skips FetchStats but the platform media id written by the successful
Upload is retained on the returned video. -/
theorem publishVideo_short_circuit
    (factory : String → Except pkgpartners.Err pkgpartners.Client)
    (ws : models.Workspace) (v : models.Video) (p : models.Platform) :
    (∀ e, factory p = .error e →
        partners.PublishVideo factory ws v p = ⟨[], v, .error e⟩) ∧
    (∀ client e, factory p = .ok client →
        client.Authenticate ws = .error e →
        partners.PublishVideo factory ws v p = ⟨[.Authenticate], v, .error e⟩) ∧
    (∀ client e, factory p = .ok client →
        client.Authenticate ws = .ok () →
        client.Upload v = .error e →
        partners.PublishVideo factory ws v p = ⟨[.Authenticate, .Upload], v, .error e⟩) ∧
    (∀ client id e, factory p = .ok client →
        client.Authenticate ws = .ok () →
        client.Upload v = .ok id →
        client.Publish (partners.setPlatformID p id v) ws = .error e →
        partners.PublishVideo factory ws v p =
          ⟨[.Authenticate, .Upload, .Publish], partners.setPlatformID p id v, .error e⟩) := by
  refine ⟨?_, ?_, ?_, ?_⟩
  · intro e hf
    simp [partners.PublishVideo, hf]
  · intro client e hf ha
    simp [partners.PublishVideo, hf, ha]
  · intro client e hf ha hu
    simp [partners.PublishVideo, hf, ha, hu]
  · intro client id e hf ha hu hp
    simp [partners.PublishVideo, hf, ha, hu, hp]

/-- Witness for C2, at a fake client whose Publish step fails after a
successful Upload: FetchStats is skipped, the error is returned
verbatim, and the media id written by Upload is retained. -/
theorem publishVideo_short_circuit_witness :
    partners.PublishVideo partners.failPublishFactory partners.mockWs partners.mockVideo
        models.PlatformYouTube =
      ⟨[.Authenticate, .Upload, .Publish],
        partners.setPlatformID models.PlatformYouTube "42" partners.mockVideo,
        .error "publish failed"⟩ :=
  (publishVideo_short_circuit partners.failPublishFactory partners.mockWs
      partners.mockVideo models.PlatformYouTube).2.2.2
    partners.failPublishClient "42" "publish failed" rfl rfl rfl rfl

theorem failJob_RetryCount (e : String) (n : Int) (j : models.PublicationJob) :
    (models.FailJob e n j).RetryCount = j.RetryCount + 1 := by
  simp only [models.FailJob]
  split <;> rfl

theorem failJob_MaxRetries (e : String) (n : Int) (j : models.PublicationJob) :
    (models.FailJob e n j).MaxRetries = j.MaxRetries := by
  simp only [models.FailJob]
  split <;> rfl

theorem failJob_Status (e : String) (n : Int) (j : models.PublicationJob) :
    (models.FailJob e n j).Status =
      if j.MaxRetries ≤ j.RetryCount + 1 then models.PublicationFailed
      else models.PublicationPending := by
  simp only [models.FailJob]
  split <;> rfl

theorem failJob_fold (seq : List (String × Int)) (j : models.PublicationJob) :
    (seq.foldl (fun acc sm => models.FailJob sm.1 sm.2 acc) j).RetryCount
        = j.RetryCount + seq.length ∧
    (seq.foldl (fun acc sm => models.FailJob sm.1 sm.2 acc) j).MaxRetries
        = j.MaxRetries ∧
    (seq ≠ [] →
      (seq.foldl (fun acc sm => models.FailJob sm.1 sm.2 acc) j).Status =
        if j.MaxRetries ≤ j.RetryCount + seq.length then models.PublicationFailed
        else models.PublicationPending) := by
  induction seq generalizing j with
  | nil => simp
  | cons x rest ih =>
    obtain ⟨hrc, hmax, hst⟩ := ih (models.FailJob x.1 x.2 j)
    rw [List.foldl_cons]
    refine ⟨?_, ?_, fun _ => ?_⟩
    · rw [hrc, failJob_RetryCount]
      push_cast [List.length_cons]
      ring
    · rw [hmax, failJob_MaxRetries]
    · rcases eq_or_ne rest [] with hr | hr
      · subst hr
        rw [List.foldl_nil, failJob_Status]
        simp
      · rw [hst hr, failJob_RetryCount, failJob_MaxRetries]
        have harith : j.RetryCount + 1 + (rest.length : Int)
            = j.RetryCount + ((x :: rest).length : Int) := by
          push_cast [List.length_cons]
          ring
        rw [harith]

/-- C3 counterexample: `FailJob` has no terminal-state guard, so for a
job with `max_retries = 1` a second `FailJob` call drives `retry_count`
to 2, violating the claimed bound `retry_count <= max_retries`. -/
theorem failJob_retry_bound_counterexample :
    (models.CreatePublicationJob "tenant" "user" 0
        { VideoID := "vid", Platform := "youtube", MaxRetries := 1 }).MaxRetries = 1 ∧
    (models.FailJob "boom" 0 (models.FailJob "boom" 0
        (models.CreatePublicationJob "tenant" "user" 0
          { VideoID := "vid", Platform := "youtube", MaxRetries := 1 }))).RetryCount = 2 ∧
    ¬((models.FailJob "boom" 0 (models.FailJob "boom" 0
        (models.CreatePublicationJob "tenant" "user" 0
          { VideoID := "vid", Platform := "youtube", MaxRetries := 1 }))).RetryCount ≤
      (models.FailJob "boom" 0 (models.FailJob "boom" 0
        (models.CreatePublicationJob "tenant" "user" 0
          { VideoID := "vid", Platform := "youtube", MaxRetries := 1 }))).MaxRetries) := by
  decide

/-- C3 (amended): for a job with `retry_count = 0` and
`max_retries = N ≥ 1`, and any non-empty sequence of at most N `FailJob`
calls, the status is `pending` after each of the first N-1 calls and
`failed` exactly upon the Nth; `retry_count` equals the number of calls
made and stays within the bound.  (The original claim's unconditional
bound fails once `FailJob` is called on an already-failed job.) -/
theorem failJob_retry_monotonic (j : models.PublicationJob) (N : Int)
    (hN : 1 ≤ N) (h0 : j.RetryCount = 0) (hm : j.MaxRetries = N)
    (seq : List (String × Int)) (hlen : (seq.length : Int) ≤ N) (hne : seq ≠ []) :
    (seq.foldl (fun acc sm => models.FailJob sm.1 sm.2 acc) j).RetryCount = seq.length ∧
    (seq.foldl (fun acc sm => models.FailJob sm.1 sm.2 acc) j).RetryCount ≤
      (seq.foldl (fun acc sm => models.FailJob sm.1 sm.2 acc) j).MaxRetries ∧
    ((seq.length : Int) < N →
      (seq.foldl (fun acc sm => models.FailJob sm.1 sm.2 acc) j).Status =
        models.PublicationPending) ∧
    ((seq.length : Int) = N →
      (seq.foldl (fun acc sm => models.FailJob sm.1 sm.2 acc) j).Status =
        models.PublicationFailed) := by
  obtain ⟨hrc, hmax, hst⟩ := failJob_fold seq j
  rw [h0] at hrc
  rw [hm] at hmax
  refine ⟨by rw [hrc]; ring, ?_, ?_, ?_⟩
  · rw [hrc, hmax]
    omega
  · intro hlt
    rw [hst hne, h0, hm, if_neg (by omega)]
  · intro heq
    rw [hst hne, h0, hm, if_pos (by omega)]

/-- Witness for C3 (amended): two failures on a default job
(`max_retries = 3`) leave it pending with `retry_count = 2`. -/
theorem failJob_retry_monotonic_witness :
    (models.FailJob "b" 0 (models.FailJob "a" 0 jobMax3)).RetryCount = 2 ∧
    (models.FailJob "b" 0 (models.FailJob "a" 0 jobMax3)).Status =
      models.PublicationPending := by
  have h := failJob_retry_monotonic jobMax3 3 (by decide) (by decide) (by decide)
      [("a", 0), ("b", 0)] (by decide) (by decide)
  exact ⟨by simpa using h.1, h.2.2.1 (by decide)⟩

/-- C4 counterexample: a reachable completed job is not protected —
`StartJob` moves it straight back to `processing`, so terminal statuses
do accept further transitions. -/
theorem terminal_status_counterexample :
    jobCompleted.Status = models.PublicationCompleted ∧
    (models.StartJob 1 jobCompleted).Status = models.PublicationProcessing ∧
    (models.StartJob 1 jobCompleted).Status ≠ jobCompleted.Status := by
  decide

/-- C4 (amended): the status-transition helpers are unguarded — each
one unconditionally writes its target status, whatever the previous
status (terminal ones included): `StartJob` yields `processing`,
`CompleteJob` yields `completed`, `CancelJob` yields `cancelled`, and
`FailJob` yields `failed` or `pending` according to the retry count
alone. -/
theorem job_status_ops_unguarded (j : models.PublicationJob) (now : Int)
    (eid eurl emsg : String) :
    (models.StartJob now j).Status = models.PublicationProcessing ∧
    (models.CompleteJob eid eurl now j).Status = models.PublicationCompleted ∧
    (models.CancelJob j).Status = models.PublicationCancelled ∧
    ((models.FailJob emsg now j).Status = models.PublicationFailed ∨
      (models.FailJob emsg now j).Status = models.PublicationPending) := by
  refine ⟨rfl, rfl, rfl, ?_⟩
  simp only [models.FailJob]
  split
  · exact .inl rfl
  · exact .inr rfl

theorem applyJobOp_preserves_retry_inv (j : models.PublicationJob) (op : models.JobOp)
    (h : j.Status = models.PublicationFailed → j.MaxRetries ≤ j.RetryCount) :
    (models.applyJobOp j op).Status = models.PublicationFailed →
      (models.applyJobOp j op).MaxRetries ≤ (models.applyJobOp j op).RetryCount := by
  cases op with
  | start now =>
    intro hs
    exact absurd
      (show models.PublicationProcessing = models.PublicationFailed from hs) (by decide)
  | complete eid eurl now =>
    intro hs
    exact absurd
      (show models.PublicationCompleted = models.PublicationFailed from hs) (by decide)
  | cancel =>
    intro hs
    exact absurd
      (show models.PublicationCancelled = models.PublicationFailed from hs) (by decide)
  | fail msg now =>
    simp only [models.applyJobOp, models.FailJob]
    split
    · rename_i hcond
      intro _
      exact hcond
    · intro hs
      exact absurd
        (show models.PublicationPending = models.PublicationFailed from hs) (by decide)

theorem runJobOps_preserves_retry_inv (ops : List models.JobOp)
    (j : models.PublicationJob)
    (h : j.Status = models.PublicationFailed → j.MaxRetries ≤ j.RetryCount) :
    (models.runJobOps j ops).Status = models.PublicationFailed →
      (models.runJobOps j ops).MaxRetries ≤ (models.runJobOps j ops).RetryCount := by
  induction ops generalizing j with
  | nil => exact h
  | cons op rest ih =>
    exact ih (models.applyJobOp j op) (applyJobOp_preserves_retry_inv j op h)

theorem createPublicationJob_retry_inv (tenantID userID : String) (now : Int)
    (req : models.CreatePublicationJobRequest) :
    (models.CreatePublicationJob tenantID userID now req).Status =
        models.PublicationFailed →
      (models.CreatePublicationJob tenantID userID now req).MaxRetries ≤
        (models.CreatePublicationJob tenantID userID now req).RetryCount := by
  obtain ⟨vid, plat, cfg, sch, mr⟩ := req
  rcases sch with _ | t
  · rcases cfg with _ | c
    · exact fun hs => absurd
        (show models.PublicationPending = models.PublicationFailed from hs) (by decide)
    · exact fun hs => absurd
        (show models.PublicationPending = models.PublicationFailed from hs) (by decide)
  · rcases cfg with _ | c
    · exact fun hs => absurd
        (show models.PublicationScheduled = models.PublicationFailed from hs) (by decide)
    · exact fun hs => absurd
        (show models.PublicationScheduled = models.PublicationFailed from hs) (by decide)

theorem isRetryable_false_of_retry_inv (j : models.PublicationJob)
    (h : j.Status = models.PublicationFailed → j.MaxRetries ≤ j.RetryCount) :
    j.IsRetryable = false := by
  unfold models.PublicationJob.IsRetryable
  by_cases hs : j.Status = models.PublicationFailed
  · have hle := h hs
    simp only [hs, Bool.and_eq_false_iff]
    left
    simp only [decide_eq_false_iff_not]
    omega
  · simp only [Bool.and_eq_false_iff, beq_eq_false_iff_ne, ne_eq]
    right
    exact hs

/-- C10: on every job created by `CreatePublicationJob` and driven only
by `StartJob`, `CompleteJob`, `FailJob` and `CancelJob`, a `failed`
status implies `retry_count >= max_retries`, and hence `IsRetryable`
returns `false` on every reachable state. -/
theorem reachable_failed_not_retryable (tenantID userID : String) (now : Int)
    (req : models.CreatePublicationJobRequest) (ops : List models.JobOp) :
    ((models.runJobOps (models.CreatePublicationJob tenantID userID now req) ops).Status =
        models.PublicationFailed →
      (models.runJobOps (models.CreatePublicationJob tenantID userID now req) ops).MaxRetries ≤
        (models.runJobOps (models.CreatePublicationJob tenantID userID now req) ops).RetryCount) ∧
    (models.runJobOps (models.CreatePublicationJob tenantID userID now req) ops).IsRetryable =
      false := by
  have hinv := runJobOps_preserves_retry_inv ops
    (models.CreatePublicationJob tenantID userID now req)
    (createPublicationJob_retry_inv tenantID userID now req)
  exact ⟨hinv, isRetryable_false_of_retry_inv _ hinv⟩

/-- Witness for C10: a job with `max_retries = 1` that fails once is in
`failed` status with `retry_count = 1 ≥ max_retries` and is not
retryable. -/
theorem reachable_failed_not_retryable_witness :
    (models.runJobOps (models.CreatePublicationJob "tenant" "user" 0
        { VideoID := "vid", Platform := "youtube", MaxRetries := 1 })
      [.fail "boom" 0]).MaxRetries ≤
      (models.runJobOps (models.CreatePublicationJob "tenant" "user" 0
          { VideoID := "vid", Platform := "youtube", MaxRetries := 1 })
        [.fail "boom" 0]).RetryCount ∧
    (models.runJobOps (models.CreatePublicationJob "tenant" "user" 0
        { VideoID := "vid", Platform := "youtube", MaxRetries := 1 })
      [.fail "boom" 0]).IsRetryable = false := by
  have h := reachable_failed_not_retryable "tenant" "user" 0
      { VideoID := "vid", Platform := "youtube", MaxRetries := 1 } [.fail "boom" 0]
  exact ⟨h.1 (by decide), h.2⟩

/-- C5 counterexample: publishing to Twitter with a successful Upload
that returns a non-numeric identifier writes nothing — the video, and
in particular `TwitterMediaID`, is left unchanged even though the call
succeeds, so it is not the case that a successful Upload always writes
the returned identifier into the platform's field. -/
theorem platform_dispatch_counterexample :
    partners.twitterBadIdClient.Upload partners.mockVideo = .ok "not-a-number" ∧
    (partners.PublishVideo partners.twitterBadIdFactory partners.mockWs partners.mockVideo
        models.PlatformTwitter).result = .ok partners.mockStats ∧
    (partners.PublishVideo partners.twitterBadIdFactory partners.mockWs partners.mockVideo
        models.PlatformTwitter).video = partners.mockVideo ∧
    partners.mockVideo.TwitterMediaID = 0 :=
  ⟨rfl, rfl, rfl, rfl⟩

/-- C5 (amended): after a successful Upload returning `id`, the
returned video is `setPlatformID platform id` of the input; for
youtube, tiktok, instagram, facebook and snapchat this writes `id`
verbatim into that platform's distinct identifier field and changes no
other field; for twitter it writes the base-10 64-bit integer value of
`id` into `TwitterMediaID` when `id` parses, and changes nothing when
it does not. -/
theorem platform_dispatch
    (factory : String → Except pkgpartners.Err pkgpartners.Client)
    (ws : models.Workspace) (v : models.Video) (p : models.Platform)
    (client : pkgpartners.Client) (id : String)
    (hf : factory p = .ok client)
    (ha : client.Authenticate ws = .ok ())
    (hu : client.Upload v = .ok id) :
    (partners.PublishVideo factory ws v p).video = partners.setPlatformID p id v ∧
    partners.setPlatformID models.PlatformYouTube id v = { v with YouTubeID := id } ∧
    partners.setPlatformID models.PlatformTikTok id v = { v with TikTokID := id } ∧
    partners.setPlatformID models.PlatformInstagram id v = { v with InstagramID := id } ∧
    partners.setPlatformID models.PlatformFacebook id v = { v with FacebookID := id } ∧
    partners.setPlatformID models.PlatformSnapchat id v = { v with SnapchatMediaID := id } ∧
    (∀ n, strconv.parseInt64 id = some n →
      partners.setPlatformID models.PlatformTwitter id v = { v with TwitterMediaID := n }) ∧
    (strconv.parseInt64 id = none →
      partners.setPlatformID models.PlatformTwitter id v = v) := by
  refine ⟨?_, rfl, rfl, rfl, rfl, rfl, fun n hn => ?_, fun hn => ?_⟩
  · rcases hp : client.Publish (partners.setPlatformID p id v) ws with e | u
    · simp [partners.PublishVideo, hf, ha, hu, hp]
    · simp [partners.PublishVideo, hf, ha, hu, hp]
  · simp [partners.setPlatformID, hn, models.PlatformYouTube, models.PlatformTikTok,
      models.PlatformInstagram, models.PlatformFacebook, models.PlatformTwitter,
      models.PlatformSnapchat]
  · simp [partners.setPlatformID, hn, models.PlatformYouTube, models.PlatformTikTok,
      models.PlatformInstagram, models.PlatformFacebook, models.PlatformTwitter,
      models.PlatformSnapchat]

/-- Witness for C5 (amended), at the test's fake client on YouTube
(`Upload` returns `"42"`), plus the Twitter parse case at `"42"`. -/
theorem platform_dispatch_witness :
    (partners.PublishVideo partners.mockFactory partners.mockWs partners.mockVideo
        models.PlatformYouTube).video =
      partners.setPlatformID models.PlatformYouTube "42" partners.mockVideo ∧
    partners.setPlatformID models.PlatformYouTube "42" partners.mockVideo =
      { partners.mockVideo with YouTubeID := "42" } ∧
    partners.setPlatformID models.PlatformTwitter "42" partners.mockVideo =
      { partners.mockVideo with TwitterMediaID := 42 } := by
  have h := platform_dispatch partners.mockFactory partners.mockWs partners.mockVideo
      models.PlatformYouTube partners.mockClient "42" rfl rfl rfl
  exact ⟨h.1, h.2.1, h.2.2.2.2.2.2.1 42 (by decide)⟩

/-- C6: the factory `New` succeeds for exactly the six platform
identifiers youtube, tiktok, instagram, facebook, twitter, snapchat,
and for every other string returns the "unsupported platform" error and
no client. -/
theorem new_factory_closure (s : String) :
    ((∃ c, pkgpartners.New s = .ok c) ↔
      s ∈ ["youtube", "tiktok", "instagram", "facebook", "twitter", "snapchat"]) ∧
    (s ∉ ["youtube", "tiktok", "instagram", "facebook", "twitter", "snapchat"] →
      pkgpartners.New s = .error ("unsupported platform: " ++ s)) := by
  unfold pkgpartners.New
  split_ifs with h1 h2 h3 h4 h5 h6 <;>
    simp_all [models.PlatformYouTube, models.PlatformTikTok, models.PlatformInstagram,
      models.PlatformFacebook, models.PlatformTwitter, models.PlatformSnapchat]

/-- Witness for C6: "linkedin" (a platform the models enumerate but the
factory does not support) errors, the empty string and a case variant
error, "youtube" succeeds. -/
theorem new_factory_closure_witness :
    pkgpartners.New "linkedin" = .error ("unsupported platform: " ++ "linkedin") ∧
    pkgpartners.New "" = .error ("unsupported platform: " ++ "") ∧
    pkgpartners.New "YouTube" = .error ("unsupported platform: " ++ "YouTube") ∧
    (∃ c, pkgpartners.New "youtube" = .ok c) := by
  refine ⟨(new_factory_closure "linkedin").2 (by decide),
    (new_factory_closure "").2 (by decide),
    (new_factory_closure "YouTube").2 (by decide),
    (new_factory_closure "youtube").1.mpr (by decide)⟩

/-- C7 counterexample: a job created at time 100 with a supplied
scheduled time of 50 — not in the future — still gets status
`scheduled`, so `scheduled` is not reserved to future start times. -/
theorem create_scheduled_past_counterexample :
    (models.CreatePublicationJob "tenant" "user" 100
        { VideoID := "vid", Platform := "youtube", ScheduledAt := some 50 }).Status =
      models.PublicationScheduled ∧
    (50 : Int) < 100 := by
  decide

/-- C7 (amended): a created job has status `pending` when no scheduled
time is supplied and `scheduled` whenever one is supplied (future or
not); `retry_count` starts at 0; `max_retries` is 3 when the request
leaves it unset (zero) and the requested value otherwise. -/
theorem create_publication_job_defaults (tenantID userID : String) (now : Int)
    (req : models.CreatePublicationJobRequest) :
    (req.ScheduledAt = none →
      (models.CreatePublicationJob tenantID userID now req).Status =
        models.PublicationPending) ∧
    (∀ t, req.ScheduledAt = some t →
      (models.CreatePublicationJob tenantID userID now req).Status =
          models.PublicationScheduled ∧
      (models.CreatePublicationJob tenantID userID now req).ScheduledAt = some t) ∧
    (models.CreatePublicationJob tenantID userID now req).RetryCount = 0 ∧
    (req.MaxRetries = 0 →
      (models.CreatePublicationJob tenantID userID now req).MaxRetries = 3) ∧
    (req.MaxRetries ≠ 0 →
      (models.CreatePublicationJob tenantID userID now req).MaxRetries =
        req.MaxRetries) := by
  obtain ⟨vid, plat, cfg, sch, mr⟩ := req
  rcases sch with _ | t <;> rcases cfg with _ | c <;>
    by_cases hm : mr = 0 <;>
    simp_all [models.CreatePublicationJob]

/-- Witness for C7 (amended): the scheduled creation at time 0 with
start time 50 is `scheduled` with the supplied time recorded, zero
retries, and the default bound of 3. -/
theorem create_publication_job_defaults_witness :
    jobScheduled50.Status = models.PublicationScheduled ∧
    jobScheduled50.ScheduledAt = some 50 ∧
    jobScheduled50.RetryCount = 0 ∧
    jobScheduled50.MaxRetries = 3 := by
  have h := create_publication_job_defaults "tenant" "user" 0
      { VideoID := "vid", Platform := "youtube", ScheduledAt := some 50 }
  obtain ⟨hs, hsch⟩ := h.2.1 50 rfl
  exact ⟨hs, hsch, h.2.2.1, h.2.2.2.1 rfl⟩

/-- C8: a job is listed by `GetScheduledJobs(before, ...)` exactly when
it is in the table with status `scheduled` and its scheduled time is at
most `before` (so a future-scheduled job is excluded until
`now >= scheduled_at` and included from then on); the listing does not
modify the table, so repeated sweeps return the job again; and every
job whose `ShouldExecute` predicate holds is listed.  (`limit` is
assumed large enough not to truncate.) -/
theorem get_scheduled_jobs_due (db : List models.PublicationJob) (before : Int)
    (limit : Nat) (hl : db.length ≤ limit) :
    (repositories.GetScheduledJobs db before limit).2 = db ∧
    (∀ j, j ∈ (repositories.GetScheduledJobs db before limit).1 ↔
      (j ∈ db ∧ j.Status = models.PublicationScheduled ∧
        ∃ t, j.ScheduledAt = some t ∧ t ≤ before)) ∧
    (∀ j, j ∈ db → j.ShouldExecute before = true →
      j ∈ (repositories.GetScheduledJobs db before limit).1) := by
  have hmem : ∀ j, j ∈ (repositories.GetScheduledJobs db before limit).1 ↔
      (j ∈ db ∧ j.Status = models.PublicationScheduled ∧
        ∃ t, j.ScheduledAt = some t ∧ t ≤ before) := by
    intro j
    unfold repositories.GetScheduledJobs
    rw [List.take_of_length_le (le_trans (List.length_filter_le _ _) hl),
      List.mem_filter]
    constructor
    · rintro ⟨hjdb, hcond⟩
      rw [Bool.and_eq_true, beq_iff_eq] at hcond
      obtain ⟨hstat, hsch⟩ := hcond
      refine ⟨hjdb, hstat, ?_⟩
      cases hja : j.ScheduledAt with
      | none => rw [hja] at hsch; cases hsch
      | some t =>
        rw [hja] at hsch
        exact ⟨t, rfl, of_decide_eq_true hsch⟩
    · rintro ⟨hjdb, hstat, t, hja, hle⟩
      refine ⟨hjdb, ?_⟩
      rw [Bool.and_eq_true, beq_iff_eq]
      refine ⟨hstat, ?_⟩
      rw [hja]
      exact decide_eq_true hle
  refine ⟨rfl, hmem, fun j hjdb hex => ?_⟩
  unfold models.PublicationJob.ShouldExecute at hex
  by_cases hs : j.IsScheduled = true
  · simp only [hs, Bool.not_true, Bool.false_eq_true, if_false] at hex
    cases hja : j.ScheduledAt with
    | none => rw [hja] at hex; cases hex
    | some t =>
      rw [hja] at hex
      have hstat : j.Status = models.PublicationScheduled := by
        unfold models.PublicationJob.IsScheduled at hs
        rw [Bool.and_eq_true, beq_iff_eq] at hs
        exact hs.1
      exact (hmem j).mpr ⟨hjdb, hstat, t, hja, le_of_lt (of_decide_eq_true hex)⟩
  · rw [Bool.not_eq_true] at hs
    rw [hs] at hex
    cases hex

/-- Witness for C8: a single job scheduled for time 50 is returned by a
sweep at time 100 (table unchanged) and is absent from a sweep at time
40. -/
theorem get_scheduled_jobs_due_witness :
    (repositories.GetScheduledJobs [jobScheduled50] 100 10).2 = [jobScheduled50] ∧
    jobScheduled50 ∈ (repositories.GetScheduledJobs [jobScheduled50] 100 10).1 ∧
    jobScheduled50 ∉ (repositories.GetScheduledJobs [jobScheduled50] 40 10).1 := by
  have h100 := get_scheduled_jobs_due [jobScheduled50] 100 10 (by decide)
  have h40 := get_scheduled_jobs_due [jobScheduled50] 40 10 (by decide)
  refine ⟨h100.1, ?_, ?_⟩
  · exact (h100.2.1 jobScheduled50).mpr
      ⟨by decide, by decide, 50, by decide, by decide⟩
  · intro hmem
    obtain ⟨-, -, t, ht, hle⟩ := (h40.2.1 jobScheduled50).mp hmem
    have ht50 : jobScheduled50.ScheduledAt = some 50 := by decide
    rw [ht50] at ht
    cases ht
    omega

/-- C9: when publishing to Twitter, a successful Upload whose returned
identifier does not parse as a base-10 64-bit integer causes no error:
nothing is written to the video (in particular `TwitterMediaID` is
unchanged), Publish is still invoked, and when Publish succeeds
FetchStats is invoked and its result is returned. -/
theorem twitter_unparsable_id_ignored
    (factory : String → Except pkgpartners.Err pkgpartners.Client)
    (ws : models.Workspace) (v : models.Video)
    (client : pkgpartners.Client) (id : String)
    (hf : factory models.PlatformTwitter = .ok client)
    (ha : client.Authenticate ws = .ok ())
    (hu : client.Upload v = .ok id)
    (hnp : strconv.parseInt64 id = none) :
    (partners.PublishVideo factory ws v models.PlatformTwitter).video = v ∧
    partners.Call.Publish ∈
      (partners.PublishVideo factory ws v models.PlatformTwitter).calls ∧
    (client.Publish v ws = .ok () →
      (partners.PublishVideo factory ws v models.PlatformTwitter).calls =
        [.Authenticate, .Upload, .Publish, .FetchStats] ∧
      (partners.PublishVideo factory ws v models.PlatformTwitter).result =
        client.FetchStats v) ∧
    (∀ e, client.Publish v ws = .error e →
      (partners.PublishVideo factory ws v models.PlatformTwitter).result = .error e) := by
  have hset : partners.setPlatformID models.PlatformTwitter id v = v := by
    simp [partners.setPlatformID, hnp, models.PlatformYouTube, models.PlatformTikTok,
      models.PlatformInstagram, models.PlatformFacebook, models.PlatformTwitter,
      models.PlatformSnapchat]
  refine ⟨?_, ?_, fun hp => ⟨?_, ?_⟩, fun e hp => ?_⟩ <;>
    rcases hpub : client.Publish v ws with e' | u <;>
      simp_all [partners.PublishVideo, hf, ha, hu, hset, hpub]

/-- Witness for C9, at a fake Twitter client whose Upload returns
`"not-a-number"`: the call succeeds end to end with the video
untouched. -/
theorem twitter_unparsable_id_ignored_witness :
    (partners.PublishVideo partners.twitterBadIdFactory partners.mockWs partners.mockVideo
        models.PlatformTwitter).video = partners.mockVideo ∧
    (partners.PublishVideo partners.twitterBadIdFactory partners.mockWs partners.mockVideo
        models.PlatformTwitter).calls =
      [.Authenticate, .Upload, .Publish, .FetchStats] ∧
    (partners.PublishVideo partners.twitterBadIdFactory partners.mockWs partners.mockVideo
        models.PlatformTwitter).result =
      partners.twitterBadIdClient.FetchStats partners.mockVideo := by
  have h := twitter_unparsable_id_ignored partners.twitterBadIdFactory partners.mockWs
      partners.mockVideo partners.twitterBadIdClient "not-a-number" rfl rfl rfl (by decide)
  obtain ⟨hv, -, hs, -⟩ := h
  obtain ⟨hc, hr⟩ := hs rfl
  exact ⟨hv, hc, hr⟩
